import Mathlib

/-!
Verification of the web-scraping ETL pipeline (`src/etl_pipeline.py`).

The whole observable behaviour of the `WebScraper` class is embedded
shallowly: the two external collaborators (the HTTP endpoint reached
through `requests` plus the `BeautifulSoup` parser, and the SQLite
storage engine) are supplied by an explicit environment, Python
exceptions become an explicit `Except` discipline, the SQLite table
becomes a functional state, and each method of the class becomes a
Lean function over those.
-/

set_option maxRecDepth 8192

/-- Python exceptions, partitioned exactly as the `except` clauses of the
source distinguish them: `requestError` stands for
`requests.exceptions.RequestException` (connection errors, timeouts, and
the `HTTPError` raised by `raise_for_status`), `otherError` for every
other `Exception`. -/
inductive PyExc where
  | requestError : PyExc
  | otherError : PyExc
  deriving DecidableEq

/-- An HTTP response as observed by the code: the final status code and the
body bytes (`response.content`). -/
structure HttpResponse where
  status : Nat
  body : String
  deriving DecidableEq

/-- Outcome of `requests.get(url, headers=..., timeout=10)`: either a
delivered response, or an exception raised by the library (timeouts and
network errors raise `RequestException` subclasses). -/
inductive FetchResult where
  | ok : HttpResponse → FetchResult
  | exn : PyExc → FetchResult
  deriving DecidableEq

/-- Result of `BeautifulSoup(body, 'html.parser')` as consumed by the code:
`titleElem` is `none` when the document has no title element, and
`some ts` when one exists — `ts` being that element's `.string`, which is
itself absent (`None` in Python) when the element does not have exactly
one string child (e.g. an empty `<title></title>`); `text` is the visible
text of the whole document (`soup.get_text()`). -/
structure ParsedDoc where
  titleElem : Option (Option String)
  text : String
  deriving DecidableEq

/-- The dict built by `extract_data` on success. The title field holds an
`Option String` because `soup.title.string` can be `None` even when a
title element exists (a `Tag` is always truthy, so the conditional still
takes the `.string` branch). -/
structure RawRecord where
  url : String
  title : Option String
  content : String
  timestamp : String
  deriving DecidableEq

/-- The dict built by `transform_data` on success (cleaned fields plus the
dedup hash). -/
structure CleanRecord where
  title : String
  content : String
  url : String
  timestamp : String
  data_hash : String
  deriving DecidableEq

/-- One row of the `web_data` table. -/
structure Row where
  id : Nat
  title : String
  content : String
  url : String
  timestamp : String
  data_hash : String
  deriving DecidableEq

/-- The `web_data` table: the rows plus the `AUTOINCREMENT` counter for the
`id` primary key (SQLite never reuses a value of an `AUTOINCREMENT`
column, so a plain monotone counter models it). -/
structure Table where
  nextId : Nat
  rows : List Row
  deriving DecidableEq

/-- The storage engine's state: `none` while the `web_data` table does not
exist in the database file, `some t` once it does. -/
abbrev Storage := Option Table

/-- The environment: every behaviour of the external collaborators during
one call. `fetch` is what `requests.get` does for a URL, `parse` is what
`BeautifulSoup` does on a body (allowed to raise), `now` is
`datetime.now().isoformat()`, and `dbFault` is `some e` when the SQLite
layer raises the exception `e` on any connection attempt. -/
structure Env where
  fetch : String → FetchResult
  parse : String → Except PyExc ParsedDoc
  now : String
  dbFault : Option PyExc

/-- The three pipeline stages, used to record which stage functions a
`run_pipeline` call actually invoked. -/
inductive Stage where
  | extractS : Stage
  | transformS : Stage
  | loadS : Stage
  deriving DecidableEq

/-- Python's whitespace class as used by `str.split()` and `str.strip()`
(restricted to the ASCII whitespace characters). -/
def isWs (c : Char) : Bool :=
  c == ' ' || c == '\t' || c == '\n' || c == '\r' || c == '\x0b' || c == '\x0c'

/-- Worker for Python's `str.split()`: `acc` is the reversed current word.
Whitespace runs separate words and empty words are never produced. -/
def splitAux : List Char → List Char → List (List Char)
  | acc, [] => if acc.isEmpty then [] else [acc.reverse]
  | acc, c :: cs =>
    if isWs c then
      if acc.isEmpty then splitAux [] cs else acc.reverse :: splitAux [] cs
    else
      splitAux (c :: acc) cs

/-- Python's `' '.join(words)`: the words interleaved with single spaces. -/
def joinWords : List (List Char) → List Char
  | [] => []
  | [w] => w
  | w :: ws => w ++ ' ' :: joinWords ws

/-- Translation of `' '.join(s.split())`, the content cleaning of
`transform_data`. -/
def cleanWs (s : String) : String :=
  String.mk (joinWords (splitAux [] s.data))

/-- Remove trailing whitespace from a character list. -/
def dropTrailingWs : List Char → List Char
  | [] => []
  | c :: cs =>
    match dropTrailingWs cs with
    | [] => if isWs c then [] else [c]
    | r => c :: r

/-- Translation of Python's `str.strip()`: drop leading and trailing
whitespace. -/
def pyStrip (s : String) : String :=
  String.mk (dropTrailingWs (s.data.dropWhile isWs))

/-- Hexadecimal digit characters. -/
def hexDigit (n : Nat) : Char :=
  if n < 10 then Char.ofNat (48 + n) else Char.ofNat (87 + n)

/-- Fixed-width big-endian hexadecimal rendering. -/
def hexChars : Nat → Nat → List Char
  | 0, _ => []
  | k + 1, m => hexChars k (m / 16) ++ [hexDigit (m % 16)]

/-- Modelled from the spec: `hashlib.md5(...).hexdigest()` is an external
library primitive, modelled as a fixed deterministic function from the
hashed string to a 32-character hexadecimal digest (128 bits). Every
property claimed of the fingerprint concerns only determinism, its input,
and its fixed length, never the MD5 compression function itself. -/
def md5hex (s : String) : String :=
  String.mk (hexChars 32 (s.data.foldl (fun a c => (a * 131 + c.toNat) % 2 ^ 128) 17))

/-- The title value computed by `soup.title.string if soup.title else ''`:
the empty string when no title element exists; otherwise the element's
`.string`, which is `None` for a title element without a single string
child (a bs4 `Tag` is always truthy, so element presence alone selects
the `.string` branch). -/
def titleOf (doc : ParsedDoc) : Option String :=
  match doc.titleElem with
  | none => some ("")
  | some ts => ts

/-- The dict literal built at the end of the `try` block of
`extract_data`: the requested URL, `soup.title.string if soup.title else
''`, `soup.get_text()[:1000]`, and `datetime.now().isoformat()`. -/
def mkRaw (url : String) (doc : ParsedDoc) (ts : String) : RawRecord :=
  { url := url
  , title := titleOf doc
  , content := String.mk (doc.text.data.take 1000)
  , timestamp := ts }

/-- The `try` block of `WebScraper.extract_data`: `requests.get` (which may
raise), `response.raise_for_status()` — which, per the `requests` library,
raises `HTTPError` exactly for status codes 400–599 — then parsing and the
record literal. -/
def extract_attempt (env : Env) (url : String) : Except PyExc RawRecord :=
  match env.fetch url with
  | FetchResult.exn e => Except.error e
  | FetchResult.ok resp =>
    if 400 ≤ resp.status ∧ resp.status < 600 then Except.error PyExc.requestError
    else
      match env.parse resp.body with
      | Except.error e => Except.error e
      | Except.ok doc => Except.ok (mkRaw url doc env.now)

/-- `WebScraper.extract_data`: the `try` block guarded by
`except requests.exceptions.RequestException`, which converts exactly the
request exceptions to `None`; any other exception escapes the method. -/
def extract_data (env : Env) (url : String) : Except PyExc (Option RawRecord) :=
  match extract_attempt env url with
  | Except.ok r => Except.ok (some r)
  | Except.error PyExc.requestError => Except.ok none
  | Except.error PyExc.otherError => Except.error PyExc.otherError

/-- `WebScraper.transform_data`: `None` propagates (`if not data`); when
the record's title is absent (`None`, from a title element without a
string), `data['title'].strip()` raises `AttributeError`, which the
method's `except Exception` clause catches, returning `None` — so the
clause is reachable through exactly this path. Otherwise the title is
stripped, the content's whitespace runs are collapsed by
`' '.join(content.split())`, and the dedup hash is the MD5 digest of the
URL concatenated with the first 100 characters of the cleaned content. -/
def transform_data : Option RawRecord → Option CleanRecord
  | none => none
  | some d =>
    match d.title with
    | none => none
    | some t =>
      some { title := pyStrip t
           , content := cleanWs d.content
           , url := d.url
           , timestamp := d.timestamp
           , data_hash := md5hex (d.url ++ (cleanWs d.content).take 100) }

/-- SQLite's `INSERT OR REPLACE` against `web_data`, whose schema declares
`url` and `data_hash` `UNIQUE`: every existing row conflicting with the
new values on either unique column is deleted, then the new row is
inserted with a fresh `AUTOINCREMENT` id. -/
def insertOrReplace (t : Table) (d : CleanRecord) : Table :=
  { nextId := t.nextId + 1
  , rows := t.rows.filter (fun r => !(r.url == d.url || r.data_hash == d.data_hash))
      ++ [{ id := t.nextId
          , title := d.title
          , content := d.content
          , url := d.url
          , timestamp := d.timestamp
          , data_hash := d.data_hash }] }

/-- `WebScraper.load_data`: `None` yields `False` before any storage
access; otherwise a connection is opened (raising when the engine is
faulted, or when the table is missing the `INSERT` raises), the upsert
runs and is committed; every exception is caught and reported as `False`
with the storage unchanged (nothing was committed). -/
def load_data (env : Env) (st : Storage) (data : Option CleanRecord) : Bool × Storage :=
  match data with
  | none => (false, st)
  | some d =>
    match env.dbFault with
    | some _ => (false, st)
    | none =>
      match st with
      | none => (false, st)
      | some t => (true, some (insertOrReplace t d))

/-- `WebScraper.run_pipeline`: extract, short-circuit on `None`, transform,
short-circuit on `None`, then load; the surrounding `try`/`except
Exception` converts any exception a stage lets escape (only `extract_data`
can) into the `False` outcome with the storage untouched. The third
component records which stage functions were invoked. -/
def run_pipeline (env : Env) (st : Storage) (url : String) :
    Bool × Storage × List Stage :=
  match extract_data env url with
  | Except.error _ => (false, st, [Stage.extractS])
  | Except.ok none => (false, st, [Stage.extractS])
  | Except.ok (some raw) =>
    match transform_data (some raw) with
    | none => (false, st, [Stage.extractS, Stage.transformS])
    | some cleaned =>
      ((load_data env st (some cleaned)).1, (load_data env st (some cleaned)).2,
        [Stage.extractS, Stage.transformS, Stage.loadS])

/-- `WebScraper.setup_database`: `CREATE TABLE IF NOT EXISTS web_data ...`
inside `try`; on any storage exception the handler logs and re-`raise`s. -/
def setup_database (env : Env) (st : Storage) : Except PyExc Storage :=
  match env.dbFault with
  | some e => Except.error e
  | none =>
    match st with
    | none => Except.ok (some { nextId := 1, rows := [] })
    | some t => Except.ok (some t)

/-- `WebScraper.__init__`: records the database name, configures logging
(no observable state here) and calls `setup_database`, letting its
exception propagate to the constructor's caller. -/
def scraper_init (env : Env) (st : Storage) : Except PyExc Storage :=
  setup_database env st

/-- The rows of a table holding a given URL. -/
def rowsFor (t : Table) (u : String) : List Row :=
  t.rows.filter (fun r => r.url == u)

/-- The clean record that one successful pipeline pass over a parsed
document produces (the composition of the record literals of
`extract_data` and `transform_data`, meaningful when the title value is
present). -/
def mkClean (url : String) (doc : ParsedDoc) (ts : String) : CleanRecord :=
  { title := pyStrip ((titleOf doc).getD (""))
  , content := cleanWs (String.mk (doc.text.data.take 1000))
  , url := url
  , timestamp := ts
  , data_hash := md5hex (url ++ (cleanWs (String.mk (doc.text.data.take 1000))).take 100) }

/-- Spec-side reading of "every run of whitespace collapsed to a single
space": the flag says whether the previous character already contributed
a collapsed space. With the flag `false` this collapses each whitespace
run, including a leading one, to one space and nothing else. -/
def collapseAux : Bool → List Char → List Char
  | _, [] => []
  | prevWs, c :: cs =>
    if isWs c then
      if prevWs then collapseAux true cs else ' ' :: collapseAux true cs
    else
      c :: collapseAux false cs

/-- Spec-side definition, following the claim's words only: the content
with every whitespace run collapsed to a single space (and nothing
removed). -/
def collapseRunsSpec (s : String) : String :=
  String.mk (collapseAux false s.data)

/-! ## Whitespace normalization: tokenize-and-rejoin versus collapse-and-trim -/

theorem splitAux_ne_nil (l : List Char) : ∀ acc : List Char, acc ≠ [] → splitAux acc l ≠ [] := by
  induction l with
  | nil =>
    intro acc h
    cases acc with
    | nil => exact absurd rfl h
    | cons a as => simp [splitAux]
  | cons c cs ih =>
    intro acc h
    cases acc with
    | nil => exact absurd rfl h
    | cons a as =>
      by_cases hws : isWs c = true
      · simp [splitAux, hws]
      · simpa [splitAux, hws] using ih (c :: a :: as) (List.cons_ne_nil _ _)

theorem splitAux_nil_iff (l : List Char) : splitAux [] l = [] ↔ ∀ c ∈ l, isWs c = true := by
  induction l with
  | nil => simp [splitAux]
  | cons c cs ih =>
    by_cases hws : isWs c = true
    · simpa [splitAux, hws] using ih
    · simp only [splitAux, hws, if_false, List.isEmpty_nil, if_true]
      constructor
      · intro h
        exact absurd h (splitAux_ne_nil cs [c] (List.cons_ne_nil _ _))
      · intro h
        exact absurd (h c (List.mem_cons_self _ _)) (by simp [hws])

theorem dropTrailingWs_nil_iff (l : List Char) :
    dropTrailingWs l = [] ↔ ∀ c ∈ l, isWs c = true := by
  induction l with
  | nil => simp [dropTrailingWs]
  | cons c cs ih =>
    rcases hdt : dropTrailingWs cs with _ | ⟨d, ds⟩
    · by_cases hws : isWs c = true
      · simp only [dropTrailingWs, hdt, hws, if_true]
        simp only [List.mem_cons, true_iff]
        intro x hx
        rcases hx with rfl | hx
        · exact hws
        · exact (ih.mp hdt) x hx
      · simp [dropTrailingWs, hdt, hws]
    · simp only [dropTrailingWs, hdt]
      constructor
      · intro h
        exact absurd h (List.cons_ne_nil _ _)
      · intro h
        have : dropTrailingWs cs = [] := ih.mpr (fun x hx => h x (List.mem_cons_of_mem _ hx))
        rw [this] at hdt
        exact absurd hdt.symm (List.cons_ne_nil _ _)

theorem dropTrailingWs_cons_nonws (c : Char) (cs : List Char) (h : ¬isWs c = true) :
    dropTrailingWs (c :: cs) = c :: dropTrailingWs cs := by
  rcases hdt : dropTrailingWs cs with _ | ⟨d, ds⟩
  · simp [dropTrailingWs, hdt, h]
  · simp [dropTrailingWs, hdt]

theorem split_collapse (l : List Char) :
    (∀ acc : List Char, acc ≠ [] →
      joinWords (splitAux acc l) = acc.reverse ++ collapseAux false (dropTrailingWs l))
    ∧ joinWords (splitAux [] l) = collapseAux true (dropTrailingWs l) := by
  induction l with
  | nil =>
    constructor
    · intro acc h
      cases acc with
      | nil => exact absurd rfl h
      | cons a as => simp [splitAux, joinWords, dropTrailingWs, collapseAux]
    · simp [splitAux, joinWords, dropTrailingWs, collapseAux]
  | cons c cs ih =>
    constructor
    · intro acc h
      cases acc with
      | nil => exact absurd rfl h
      | cons a as =>
        by_cases hws : isWs c = true
        · have hsplit : splitAux (a :: as) (c :: cs) = (a :: as).reverse :: splitAux [] cs := by
            simp [splitAux, hws]
          rcases hsp : splitAux [] cs with _ | ⟨p, ps⟩
          · have hall : ∀ x ∈ cs, isWs x = true := (splitAux_nil_iff cs).mp hsp
            have hdtcs : dropTrailingWs cs = [] := (dropTrailingWs_nil_iff cs).mpr hall
            have hdt : dropTrailingWs (c :: cs) = [] := by
              simp [dropTrailingWs, hdtcs, hws]
            rw [hsplit, hsp, hdt]
            simp [joinWords, collapseAux]
          · have hne : dropTrailingWs cs ≠ [] := by
              intro hnil
              have := (splitAux_nil_iff cs).mpr ((dropTrailingWs_nil_iff cs).mp hnil)
              rw [this] at hsp
              exact absurd hsp.symm (List.cons_ne_nil _ _)
            rcases hdtcs : dropTrailingWs cs with _ | ⟨d, ds⟩
            · exact absurd hdtcs hne
            · have hdt : dropTrailingWs (c :: cs) = c :: d :: ds := by
                simp [dropTrailingWs, hdtcs]
              rw [hsplit, hsp, hdt]
              have hj := ih.2
              rw [hsp, hdtcs] at hj
              simp [joinWords, collapseAux, hws, hj]
        · have hsplit : splitAux (a :: as) (c :: cs) = splitAux (c :: a :: as) cs := by
            simp [splitAux, hws]
          rw [hsplit, ih.1 (c :: a :: as) (List.cons_ne_nil _ _),
            dropTrailingWs_cons_nonws c cs hws]
          simp [collapseAux, hws, List.append_assoc]
    · by_cases hws : isWs c = true
      · have hsplit : splitAux ([] : List Char) (c :: cs) = splitAux [] cs := by
          simp [splitAux, hws]
        have hcoll : collapseAux true (dropTrailingWs (c :: cs))
            = collapseAux true (dropTrailingWs cs) := by
          rcases hdtcs : dropTrailingWs cs with _ | ⟨d, ds⟩
          · simp [dropTrailingWs, hdtcs, hws, collapseAux]
          · simp [dropTrailingWs, hdtcs, collapseAux, hws]
        rw [hsplit, hcoll, ih.2]
      · have hsplit : splitAux ([] : List Char) (c :: cs) = splitAux [c] cs := by
          simp [splitAux, hws]
        rw [hsplit, ih.1 [c] (List.cons_ne_nil _ _), dropTrailingWs_cons_nonws c cs hws]
        simp [collapseAux, hws]

theorem collapseAux_true_eq (l : List Char) :
    collapseAux true l = collapseAux false (l.dropWhile isWs) := by
  induction l with
  | nil => simp [collapseAux]
  | cons c cs ih =>
    by_cases hws : isWs c = true
    · simpa [collapseAux, hws, List.dropWhile_cons] using ih
    · simp [collapseAux, hws, List.dropWhile_cons]

theorem dropTrailingWs_dropWhile_comm (l : List Char) :
    dropTrailingWs (l.dropWhile isWs) = (dropTrailingWs l).dropWhile isWs := by
  induction l with
  | nil => simp [dropTrailingWs]
  | cons c cs ih =>
    by_cases hws : isWs c = true
    · rcases hdtcs : dropTrailingWs cs with _ | ⟨d, ds⟩
      · have : dropTrailingWs (c :: cs) = [] := by simp [dropTrailingWs, hdtcs, hws]
        rw [this]
        rw [hdtcs] at ih
        simpa [List.dropWhile_cons, hws] using ih
      · have : dropTrailingWs (c :: cs) = c :: d :: ds := by simp [dropTrailingWs, hdtcs]
        rw [this]
        rw [hdtcs] at ih
        simpa [List.dropWhile_cons, hws] using ih
    · have h1 : dropTrailingWs (c :: cs) = c :: dropTrailingWs cs :=
        dropTrailingWs_cons_nonws c cs hws
      simp [List.dropWhile_cons, hws, h1]

theorem cleanWs_eq_collapse_strip (s : String) : cleanWs s = collapseRunsSpec (pyStrip s) := by
  show String.mk (joinWords (splitAux [] s.data)) = _
  rw [(split_collapse s.data).2, collapseAux_true_eq, ← dropTrailingWs_dropWhile_comm]
  rfl

/-! ## Behaviour of the extraction stage, branch by branch -/

theorem extract_of_fetch_req (env : Env) (url : String)
    (hf : env.fetch url = FetchResult.exn PyExc.requestError) :
    extract_data env url = Except.ok none := by
  simp only [extract_data, extract_attempt, hf]

theorem extract_of_fetch_other (env : Env) (url : String)
    (hf : env.fetch url = FetchResult.exn PyExc.otherError) :
    extract_data env url = Except.error PyExc.otherError := by
  simp only [extract_data, extract_attempt, hf]

theorem extract_of_status (env : Env) (url : String) (resp : HttpResponse)
    (hf : env.fetch url = FetchResult.ok resp)
    (hs : 400 ≤ resp.status ∧ resp.status < 600) :
    extract_data env url = Except.ok none := by
  simp only [extract_data, extract_attempt, hf]
  rw [if_pos hs]

theorem extract_of_parse_err_req (env : Env) (url : String) (resp : HttpResponse)
    (hf : env.fetch url = FetchResult.ok resp)
    (hs : ¬(400 ≤ resp.status ∧ resp.status < 600))
    (hp : env.parse resp.body = Except.error PyExc.requestError) :
    extract_data env url = Except.ok none := by
  simp only [extract_data, extract_attempt, hf]
  rw [if_neg hs]
  simp only [hp]

theorem extract_of_parse_err_other (env : Env) (url : String) (resp : HttpResponse)
    (hf : env.fetch url = FetchResult.ok resp)
    (hs : ¬(400 ≤ resp.status ∧ resp.status < 600))
    (hp : env.parse resp.body = Except.error PyExc.otherError) :
    extract_data env url = Except.error PyExc.otherError := by
  simp only [extract_data, extract_attempt, hf]
  rw [if_neg hs]
  simp only [hp]

theorem extract_of_parse_ok (env : Env) (url : String) (resp : HttpResponse) (doc : ParsedDoc)
    (hf : env.fetch url = FetchResult.ok resp)
    (hs : ¬(400 ≤ resp.status ∧ resp.status < 600))
    (hp : env.parse resp.body = Except.ok doc) :
    extract_data env url = Except.ok (some (mkRaw url doc env.now)) := by
  simp only [extract_data, extract_attempt, hf]
  rw [if_neg hs]
  simp only [hp]

theorem transform_mkRaw (url : String) (doc : ParsedDoc) (ts : String) (s : String)
    (ht : titleOf doc = some s) :
    transform_data (some (mkRaw url doc ts)) = some (mkClean url doc ts) := by
  simp [transform_data, mkRaw, mkClean, ht]

theorem transform_mkRaw_none (url : String) (doc : ParsedDoc) (ts : String)
    (ht : titleOf doc = none) :
    transform_data (some (mkRaw url doc ts)) = none := by
  simp [transform_data, mkRaw, ht]

/-! ## Behaviour of the orchestrator, branch by branch -/

theorem run_of_extract_none (env : Env) (st : Storage) (url : String)
    (he : extract_data env url = Except.ok none) :
    run_pipeline env st url = (false, st, [Stage.extractS]) := by
  unfold run_pipeline
  rw [he]

theorem run_of_extract_err (env : Env) (st : Storage) (url : String) (e : PyExc)
    (he : extract_data env url = Except.error e) :
    run_pipeline env st url = (false, st, [Stage.extractS]) := by
  unfold run_pipeline
  rw [he]

theorem run_of_success (env : Env) (t : Table) (url : String) (resp : HttpResponse)
    (doc : ParsedDoc) (s : String)
    (hf : env.fetch url = FetchResult.ok resp)
    (hs : ¬(400 ≤ resp.status ∧ resp.status < 600))
    (hp : env.parse resp.body = Except.ok doc)
    (ht : titleOf doc = some s)
    (hd : env.dbFault = none) :
    run_pipeline env (some t) url =
      (true, some (insertOrReplace t (mkClean url doc env.now)),
        [Stage.extractS, Stage.transformS, Stage.loadS]) := by
  have he := extract_of_parse_ok env url resp doc hf hs hp
  simp only [run_pipeline, he, transform_mkRaw url doc env.now s ht, load_data, hd]

theorem run_true_inv (env : Env) (st : Storage) (url : String) (st2 : Storage)
    (tr : List Stage) (h : run_pipeline env st url = (true, st2, tr)) :
    ∃ resp doc t s, env.fetch url = FetchResult.ok resp
      ∧ ¬(400 ≤ resp.status ∧ resp.status < 600)
      ∧ env.parse resp.body = Except.ok doc
      ∧ titleOf doc = some s
      ∧ env.dbFault = none
      ∧ st = some t
      ∧ st2 = some (insertOrReplace t (mkClean url doc env.now))
      ∧ tr = [Stage.extractS, Stage.transformS, Stage.loadS] := by
  rcases hf : env.fetch url with resp | e
  · by_cases hs : 400 ≤ resp.status ∧ resp.status < 600
    · rw [run_of_extract_none env st url (extract_of_status env url resp hf hs)] at h
      simp at h
    · rcases hp : env.parse resp.body with e | doc
      · cases e
        · rw [run_of_extract_none env st url
            (extract_of_parse_err_req env url resp hf hs hp)] at h
          simp at h
        · rw [run_of_extract_err env st url PyExc.otherError
            (extract_of_parse_err_other env url resp hf hs hp)] at h
          simp at h
      · rcases hts : titleOf doc with _ | s
        · have he := extract_of_parse_ok env url resp doc hf hs hp
          simp only [run_pipeline, he, transform_mkRaw_none url doc env.now hts] at h
          simp at h
        · rcases hd : env.dbFault with _ | e
          · rcases hst : st with _ | t
            · subst hst
              have he := extract_of_parse_ok env url resp doc hf hs hp
              simp only [run_pipeline, he, transform_mkRaw url doc env.now s hts,
                load_data, hd] at h
              simp at h
            · subst hst
              rw [run_of_success env t url resp doc s hf hs hp hts hd] at h
              have h2 := congrArg (fun p => p.2.1) h
              have h3 := congrArg (fun p => p.2.2) h
              exact ⟨resp, doc, t, s, rfl, hs, hp, hts, rfl, rfl, h2.symm, h3.symm⟩
          · have he := extract_of_parse_ok env url resp doc hf hs hp
            simp only [run_pipeline, he, transform_mkRaw url doc env.now s hts,
              load_data, hd] at h
            simp at h
  · cases e
    · rw [run_of_extract_none env st url (extract_of_fetch_req env url hf)] at h
      simp at h
    · rw [run_of_extract_err env st url PyExc.otherError
        (extract_of_fetch_other env url hf)] at h
      simp at h

/-! ## The upsert against the unique url column -/

theorem rowsFor_insertOrReplace (t : Table) (d : CleanRecord) :
    rowsFor (insertOrReplace t d) d.url =
      [{ id := t.nextId, title := d.title, content := d.content, url := d.url
       , timestamp := d.timestamp, data_hash := d.data_hash }] := by
  unfold rowsFor insertOrReplace
  rw [List.filter_append]
  have h1 : (t.rows.filter fun r => !(r.url == d.url || r.data_hash == d.data_hash)).filter
      (fun r => r.url == d.url) = [] := by
    rw [List.filter_eq_nil_iff]
    intro a ha
    have h2 := (List.mem_filter.mp ha).2
    simp only [Bool.not_eq_eq_eq_not, Bool.not_true, Bool.or_eq_false_iff] at h2
    simp [h2.1]
  rw [h1]
  simp

/-- The clean record `transform_data` produces from a raw record whose
title is the present string `t`. -/
def cleanOf (r : RawRecord) (t : String) : CleanRecord :=
  { title := pyStrip t
  , content := cleanWs r.content
  , url := r.url
  , timestamp := r.timestamp
  , data_hash := md5hex (r.url ++ (cleanWs r.content).take 100) }

/-- Inversion for a successful transform: the input's title value was
present (otherwise `.strip()` raises and transform returns `None`) and
the output record is exactly the cleaned record of the input. -/
theorem transform_some_inv (r : RawRecord) (c : CleanRecord)
    (h : transform_data (some r) = some c) :
    ∃ t, r.title = some t ∧ c = cleanOf r t := by
  rcases ht : r.title with _ | t
  · have hnone : transform_data (some r) = none := by
      simp [transform_data, ht]
    rw [hnone] at h
    exact absurd h (by simp)
  · have h2 : some (cleanOf r t) = some c := by
      rw [← h]
      simp [transform_data, ht, cleanOf]
    exact ⟨t, rfl, (Option.some.inj h2).symm⟩

/-! ## Concrete scenarios -/

/-- A healthy run: the endpoint answers 200 with a page whose title text is
`T` and whose visible text is `hello world`; the storage engine works. -/
def envOk : Env :=
  { fetch := fun _ => FetchResult.ok { status := 200, body := "page" }
  , parse := fun _ => Except.ok { titleElem := some (some "T"), text := "hello world" }
  , now := "ts"
  , dbFault := none }

/-- The endpoint times out (`requests.get` raises a request exception). -/
def envTimeout : Env :=
  { fetch := fun _ => FetchResult.exn PyExc.requestError
  , parse := fun _ => Except.ok { titleElem := none, text := "" }
  , now := "ts"
  , dbFault := none }

/-- The endpoint answers 404 Not Found. -/
def env404 : Env :=
  { fetch := fun _ => FetchResult.ok { status := 404, body := "nf" }
  , parse := fun _ => Except.ok { titleElem := none, text := "nf" }
  , now := "ts"
  , dbFault := none }

/-- The endpoint delivers a 304 Not Modified: a non-2xx final status that
`raise_for_status` does not treat as an error. -/
def env304 : Env :=
  { fetch := fun _ => FetchResult.ok { status := 304, body := "page" }
  , parse := fun _ => Except.ok { titleElem := none, text := "hello" }
  , now := "ts"
  , dbFault := none }

/-- The endpoint answers 200 but the parser raises a non-request exception
(a parse failure of the response body). -/
def envParseFail : Env :=
  { fetch := fun _ => FetchResult.ok { status := 200, body := "page" }
  , parse := fun _ => Except.error PyExc.otherError
  , now := "ts"
  , dbFault := none }

/-- The endpoint answers 200 with a document whose title element exists
but has no string child (such as an empty title element), so its
`.string` is `None`. -/
def envEmptyTitle : Env :=
  { fetch := fun _ => FetchResult.ok { status := 200, body := "page" }
  , parse := fun _ => Except.ok { titleElem := some none, text := "body" }
  , now := "ts"
  , dbFault := none }

/-- The storage engine raises on every connection attempt. -/
def envFault : Env :=
  { fetch := fun _ => FetchResult.exn PyExc.requestError
  , parse := fun _ => Except.ok { titleElem := none, text := "" }
  , now := "ts"
  , dbFault := some PyExc.otherError }

/-- A freshly created, empty `web_data` table. -/
def table0 : Table := { nextId := 1, rows := [] }

/-- The row the healthy run stores on an empty table. -/
def rowOk1 : Row :=
  { id := 1, title := "T", content := "hello world", url := "u", timestamp := "ts"
  , data_hash := md5hex ("uhello world") }

/-- The table after the healthy run on `table0`. -/
def tableOk1 : Table := { nextId := 2, rows := [rowOk1] }

/-- The row after running the healthy scenario a second time. -/
def rowOk2 : Row :=
  { id := 2, title := "T", content := "hello world", url := "u", timestamp := "ts"
  , data_hash := md5hex ("uhello world") }

/-- The table after the second healthy run. -/
def tableOk2 : Table := { nextId := 3, rows := [rowOk2] }

/-! ## The claims -/

/-- C1: Upsert idempotence. First, running the pipeline twice against
byte-identical HTTP responses and the same parser, with a healthy storage
engine, succeeds both times and leaves exactly one stored row for the URL,
whose `url` and `data_hash` agree between the two calls (only `id` and
`timestamp` may differ). Second, at the load level: loading a second clean
record whose `url` equals an existing row's `url` — whatever its
fingerprint — replaces that row's fields and keeps exactly one row for
that url. -/
theorem upsert_idempotent :
    (∀ (e1 e2 : Env) (t : Table) (url : String) (st1 st2 : Storage) (b2 : Bool)
      (tr1 tr2 : List Stage),
      e1.fetch url = e2.fetch url → e1.parse = e2.parse → e2.dbFault = none →
      run_pipeline e1 (some t) url = (true, st1, tr1) →
      run_pipeline e2 st1 url = (b2, st2, tr2) →
      b2 = true ∧ ∃ t1 t2 r1 r2, st1 = some t1 ∧ st2 = some t2 ∧
        rowsFor t1 url = [r1] ∧ rowsFor t2 url = [r2] ∧
        r2.url = r1.url ∧ r2.data_hash = r1.data_hash)
    ∧
    (∀ (env : Env) (t : Table) (c1 c2 : CleanRecord) (st1 : Storage) (b1 : Bool),
      env.dbFault = none → c2.url = c1.url →
      load_data env (some t) (some c1) = (b1, st1) →
      (load_data env st1 (some c2)).1 = true ∧
      ∃ t2, (load_data env st1 (some c2)).2 = some t2 ∧
        rowsFor t2 c1.url =
          [{ id := t.nextId + 1, title := c2.title, content := c2.content
           , url := c2.url, timestamp := c2.timestamp, data_hash := c2.data_hash }]) := by
  constructor
  · intro e1 e2 t url st1 st2 b2 tr1 tr2 hfe hpe hd2 h1 h2
    obtain ⟨resp, doc, t', s, hf1, hs1, hp1, hts1, hd1, hsome, hst1, htr1⟩ :=
      run_true_inv e1 (some t) url st1 tr1 h1
    have ht' : t = t' := Option.some.inj hsome
    subst ht'
    have hf2 : e2.fetch url = FetchResult.ok resp := by rw [← hfe]; exact hf1
    have hp2 : e2.parse resp.body = Except.ok doc := by rw [← hpe]; exact hp1
    subst hst1
    have hrun2 := run_of_success e2 (insertOrReplace t (mkClean url doc e1.now))
      url resp doc s hf2 hs1 hp2 hts1 hd2
    rw [hrun2] at h2
    have hb2 : b2 = true := (congrArg (fun p => p.1) h2).symm
    have hst2 := (congrArg (fun p => p.2.1) h2).symm
    subst hb2
    refine ⟨rfl, insertOrReplace t (mkClean url doc e1.now),
      insertOrReplace (insertOrReplace t (mkClean url doc e1.now)) (mkClean url doc e2.now),
      _, _, rfl, hst2, rowsFor_insertOrReplace t (mkClean url doc e1.now),
      rowsFor_insertOrReplace (insertOrReplace t (mkClean url doc e1.now))
        (mkClean url doc e2.now), rfl, rfl⟩
  · intro env t c1 c2 st1 b1 hd hurl h1
    have hload1 : load_data env (some t) (some c1) = (true, some (insertOrReplace t c1)) := by
      simp [load_data, hd]
    rw [hload1] at h1
    have hst1 : st1 = some (insertOrReplace t c1) := (congrArg (fun p => p.2) h1).symm
    subst hst1
    have hload2 : load_data env (some (insertOrReplace t c1)) (some c2) =
        (true, some (insertOrReplace (insertOrReplace t c1) c2)) := by
      simp [load_data, hd]
    rw [hload2]
    refine ⟨rfl, insertOrReplace (insertOrReplace t c1) c2, rfl, ?_⟩
    rw [← hurl]
    exact rowsFor_insertOrReplace (insertOrReplace t c1) c2

/-- C1 witness: the healthy scenario run twice from the empty table. -/
theorem upsert_idempotent_witness :
    (true : Bool) = true ∧ ∃ t1 t2 r1 r2, (some tableOk1 : Storage) = some t1 ∧
      (some tableOk2 : Storage) = some t2 ∧ rowsFor t1 ("u") = [r1] ∧
      rowsFor t2 ("u") = [r2] ∧ r2.url = r1.url ∧ r2.data_hash = r1.data_hash :=
  upsert_idempotent.1 envOk envOk table0 ("u") (some tableOk1) (some tableOk2) true
    [Stage.extractS, Stage.transformS, Stage.loadS]
    [Stage.extractS, Stage.transformS, Stage.loadS] rfl rfl rfl rfl rfl

/-- C2 counterexample: a 304 Not Modified final response is not 2xx, yet
`raise_for_status` accepts it (it raises only for 400–599), so the
pipeline proceeds: `run_pipeline` returns `true` and both `transform` and
`load` are invoked, contradicting the claim as stated. -/
theorem short_circuit_cex :
    env304.fetch ("u") = FetchResult.ok { status := 304, body := "page" } ∧
    ¬(200 ≤ (304 : Nat) ∧ (304 : Nat) < 300) ∧
    (run_pipeline env304 (some table0) ("u")).1 = true ∧
    (run_pipeline env304 (some table0) ("u")).2.2 =
      [Stage.extractS, Stage.transformS, Stage.loadS] :=
  ⟨rfl, by decide, rfl, rfl⟩

/-- C2 (amended): for every URL whose fetch raises a request exception
(network error or timeout) or yields a 4xx/5xx response, `extract_data`
returns `None`, and `run_pipeline` returns `false` having invoked only the
extract stage — so neither `transform_data` nor `load_data` runs and the
storage is unchanged. -/
theorem short_circuit_on_fetch_failure (env : Env) (st : Storage) (url : String) :
    (env.fetch url = FetchResult.exn PyExc.requestError →
      extract_data env url = Except.ok none ∧
      run_pipeline env st url = (false, st, [Stage.extractS])) ∧
    (∀ resp, env.fetch url = FetchResult.ok resp → 400 ≤ resp.status → resp.status < 600 →
      extract_data env url = Except.ok none ∧
      run_pipeline env st url = (false, st, [Stage.extractS])) := by
  constructor
  · intro hf
    have he := extract_of_fetch_req env url hf
    exact ⟨he, run_of_extract_none env st url he⟩
  · intro resp hf h4 h6
    have he := extract_of_status env url resp hf ⟨h4, h6⟩
    exact ⟨he, run_of_extract_none env st url he⟩

/-- C2 witness: a timeout and a 404, each short-circuiting the pipeline. -/
theorem short_circuit_on_fetch_failure_witness :
    (extract_data envTimeout ("u") = Except.ok none ∧
      run_pipeline envTimeout (some table0) ("u") = (false, some table0, [Stage.extractS])) ∧
    (extract_data env404 ("u") = Except.ok none ∧
      run_pipeline env404 (some table0) ("u") = (false, some table0, [Stage.extractS])) :=
  ⟨(short_circuit_on_fetch_failure envTimeout (some table0) ("u")).1 rfl,
   (short_circuit_on_fetch_failure env404 (some table0) ("u")).2
     { status := 404, body := "nf" } rfl (by decide) (by decide)⟩

/-- C3: Fingerprint determinism and dedup granularity. `transform_data` is
a function, so identical raw records get identical fingerprints; two raw
records agreeing on `url` and on the first 100 characters of the cleaned
content get identical fingerprints however their later content differs;
and the fingerprint is exactly the digest of the URL concatenated with the
first 100 characters of the cleaned content. -/
theorem fingerprint_determinism :
    (∀ r : RawRecord, transform_data (some r) = transform_data (some r)) ∧
    (∀ (r1 r2 : RawRecord) (c1 c2 : CleanRecord),
      transform_data (some r1) = some c1 → transform_data (some r2) = some c2 →
      r1.url = r2.url →
      (cleanWs r1.content).take 100 = (cleanWs r2.content).take 100 →
      c1.data_hash = c2.data_hash) ∧
    (∀ (r : RawRecord) (c : CleanRecord), transform_data (some r) = some c →
      c.data_hash = md5hex (r.url ++ (cleanWs r.content).take 100)) := by
  refine ⟨fun r => rfl, ?_, ?_⟩
  · intro r1 r2 c1 c2 h1 h2 hu hpre
    obtain ⟨t1, ht1, e1⟩ := transform_some_inv r1 c1 h1
    obtain ⟨t2, ht2, e2⟩ := transform_some_inv r2 c2 h2
    subst e1
    subst e2
    show md5hex (r1.url ++ (cleanWs r1.content).take 100)
      = md5hex (r2.url ++ (cleanWs r2.content).take 100)
    rw [hu, hpre]
  · intro r c h
    obtain ⟨t, ht, e⟩ := transform_some_inv r c h
    subst e
    rfl

/-- C3 witness: two raw records differing in raw content, title and
timestamp but with equal cleaned content prefixes get the same hash. -/
theorem fingerprint_determinism_witness :
    transform_data
        (some { url := "u", title := some ("t"), content := "x  y", timestamp := "t1" })
      = transform_data
        (some { url := "u", title := some ("t"), content := "x  y", timestamp := "t1" }) ∧
    md5hex ("ux y") = md5hex ("ux y") ∧
    md5hex ("ux y") = md5hex ("u" ++ (cleanWs ("x  y")).take 100) :=
  ⟨fingerprint_determinism.1
     { url := "u", title := some ("t"), content := "x  y", timestamp := "t1" },
   fingerprint_determinism.2.1
     { url := "u", title := some ("t"), content := "x  y", timestamp := "t1" }
     { url := "u", title := some ("s"), content := "x\ny", timestamp := "t2" }
     { title := "t", content := "x y", url := "u", timestamp := "t1"
     , data_hash := md5hex ("ux y") }
     { title := "s", content := "x y", url := "u", timestamp := "t2"
     , data_hash := md5hex ("ux y") } rfl rfl rfl rfl,
   fingerprint_determinism.2.2
     { url := "u", title := some ("t"), content := "x  y", timestamp := "t1" }
     { title := "t", content := "x y", url := "u", timestamp := "t1"
     , data_hash := md5hex ("ux y") } rfl⟩

/-- C4: the orchestrator never raises: `run_pipeline` always yields a
boolean result triple, and even when a stage lets an exception escape —
which in this code only `extract_data` can — the catch-all converts it to
the `false` outcome with the storage untouched and no later stage run. -/
theorem orchestrator_never_raises (env : Env) (st : Storage) (url : String) :
    (∃ b st2 invoked, run_pipeline env st url = (b, st2, invoked)) ∧
    (∀ e, extract_data env url = Except.error e →
      run_pipeline env st url = (false, st, [Stage.extractS])) :=
  ⟨⟨_, _, _, rfl⟩, fun e he => run_of_extract_err env st url e he⟩

/-- C4 witness: a parse failure escapes `extract_data` and the orchestrator
converts it to `false`. -/
theorem orchestrator_never_raises_witness :
    (∃ b st2 invoked, run_pipeline envParseFail (some table0) ("u") = (b, st2, invoked)) ∧
    run_pipeline envParseFail (some table0) ("u") = (false, some table0, [Stage.extractS]) :=
  ⟨(orchestrator_never_raises envParseFail (some table0) ("u")).1,
   (orchestrator_never_raises envParseFail (some table0) ("u")).2 PyExc.otherError rfl⟩

/-- C5 counterexample: a parse failure of the response body is NOT caught
at the extractor's boundary: with a 200 response and a raising parser,
`extract_data` raises (returns `Except.error`) instead of returning the
absence value, contradicting the claim as stated. -/
theorem extract_containment_cex :
    envParseFail.fetch ("u") = FetchResult.ok { status := 200, body := "page" } ∧
    envParseFail.parse ("page") = Except.error PyExc.otherError ∧
    extract_data envParseFail ("u") = Except.error PyExc.otherError :=
  ⟨rfl, rfl, rfl⟩

/-- C5 (amended): network errors, timeouts and 4xx/5xx statuses are caught
at the extractor's own boundary (its `except` clause covers exactly the
request exceptions) and become the absence value; a parse failure of the
response body is not caught there and propagates out of `extract_data`,
to be absorbed only by the orchestrator's catch-all. -/
theorem extract_failure_containment (env : Env) (url : String) :
    (env.fetch url = FetchResult.exn PyExc.requestError →
      extract_data env url = Except.ok none) ∧
    (∀ resp, env.fetch url = FetchResult.ok resp → 400 ≤ resp.status → resp.status < 600 →
      extract_data env url = Except.ok none) ∧
    (∀ resp, env.fetch url = FetchResult.ok resp →
      ¬(400 ≤ resp.status ∧ resp.status < 600) →
      env.parse resp.body = Except.error PyExc.otherError →
      extract_data env url = Except.error PyExc.otherError) := by
  refine ⟨?_, ?_, ?_⟩
  · intro hf
    exact extract_of_fetch_req env url hf
  · intro resp hf h4 h6
    exact extract_of_status env url resp hf ⟨h4, h6⟩
  · intro resp hf hs hp
    exact extract_of_parse_err_other env url resp hf hs hp

/-- C5 witness: a timeout, a 404 and an escaping parse failure. -/
theorem extract_failure_containment_witness :
    extract_data envTimeout ("u") = Except.ok none ∧
    extract_data env404 ("u") = Except.ok none ∧
    extract_data envParseFail ("u") = Except.error PyExc.otherError :=
  ⟨(extract_failure_containment envTimeout ("u")).1 rfl,
   (extract_failure_containment env404 ("u")).2.1
     { status := 404, body := "nf" } rfl (by decide) (by decide),
   (extract_failure_containment envParseFail ("u")).2.2
     { status := 200, body := "page" } rfl (by decide) rfl⟩

/-- C6 counterexample: for a 2xx response whose document HAS a title
element but one without a string child (an empty title element), the code
stores `None` in the title field — a bs4 `Tag` is always truthy, and
`.string` of a childless tag is `None` — so the extracted record's title
is empty (absent) although a title element exists, contradicting the
claim's "title is empty only if the document has no title element".
Downstream, `None.strip()` raises inside `transform_data`, whose handler
returns `None`, and the run fails with nothing stored. -/
theorem extract_postcondition_cex :
    envEmptyTitle.parse ("page") = Except.ok { titleElem := some none, text := "body" } ∧
    (some (none : Option String) : Option (Option String)) ≠ none ∧
    extract_data envEmptyTitle ("u") =
      Except.ok (some { url := "u", title := none, content := "body", timestamp := "ts" }) ∧
    transform_data (some { url := "u", title := none, content := "body", timestamp := "ts" })
      = none ∧
    run_pipeline envEmptyTitle (some table0) ("u") =
      (false, some table0, [Stage.extractS, Stage.transformS]) :=
  ⟨rfl, by decide, rfl, rfl, rfl⟩

/-- C6 (amended): for every 2xx response whose body parses, `extract_data`
succeeds with a record whose content is at most 1000 characters long and
whose title field holds exactly what the code computes from the document:
the empty string when there is no title element, the title element's
string when it has one, and no value at all (`None`) when the title
element has no string child. Hence a title that is the empty string can
arise only from a document with no title element (or, never produced by
the parser, a title element whose string is itself empty), while an empty
title element yields an absent title. -/
theorem extract_success_postcondition (env : Env) (url : String) (resp : HttpResponse)
    (doc : ParsedDoc) (hf : env.fetch url = FetchResult.ok resp)
    (hlo : 200 ≤ resp.status) (hhi : resp.status < 300)
    (hp : env.parse resp.body = Except.ok doc) :
    ∃ rec, extract_data env url = Except.ok (some rec) ∧
      rec.content.length ≤ 1000 ∧
      rec.title = titleOf doc ∧
      (doc.titleElem = none → rec.title = some ("")) ∧
      (doc.titleElem = some none → rec.title = none) ∧
      (rec.title = some ("") → doc.titleElem = none ∨ doc.titleElem = some (some (""))) := by
  have hs : ¬(400 ≤ resp.status ∧ resp.status < 600) := by omega
  refine ⟨mkRaw url doc env.now, extract_of_parse_ok env url resp doc hf hs hp,
    ?_, rfl, ?_, ?_, ?_⟩
  · show (String.mk (doc.text.data.take 1000)).length ≤ 1000
    have hlen : (String.mk (doc.text.data.take 1000)).length
        = (doc.text.data.take 1000).length := rfl
    rw [hlen]
    exact List.length_take_le 1000 _
  · intro h
    show titleOf doc = some ("")
    simp [titleOf, h]
  · intro h
    show titleOf doc = none
    simp [titleOf, h]
  · intro h
    have h2 : titleOf doc = some ("") := h
    rcases hte : doc.titleElem with _ | ts
    · exact Or.inl rfl
    · right
      simp only [titleOf, hte] at h2
      rw [h2]

/-- C6 witness: the healthy 200 scenario with title element string `T`. -/
theorem extract_success_postcondition_witness :
    ∃ rec, extract_data envOk ("u") = Except.ok (some rec) ∧
      rec.content.length ≤ 1000 ∧
      rec.title = titleOf ({ titleElem := some (some "T"), text := "hello world" }) ∧
      ((({ titleElem := some (some "T"), text := "hello world" } : ParsedDoc)).titleElem = none →
        rec.title = some ("")) ∧
      ((({ titleElem := some (some "T"), text := "hello world" } : ParsedDoc)).titleElem
          = some none → rec.title = none) ∧
      (rec.title = some ("") →
        (({ titleElem := some (some "T"), text := "hello world" } : ParsedDoc)).titleElem
          = none ∨
        (({ titleElem := some (some "T"), text := "hello world" } : ParsedDoc)).titleElem
          = some (some (""))) :=
  extract_success_postcondition envOk ("u") { status := 200, body := "page" }
    { titleElem := some (some "T"), text := "hello world" } rfl (by decide) (by decide) rfl

/-- C7: Null propagation. `transform_data` maps `None` to `None`;
`load_data` maps `None` to `False` leaving the storage untouched; and an
absent extraction propagates through `run_pipeline` as the `false` result
with only the extract stage invoked. -/
theorem null_propagation (env : Env) (st : Storage) (url : String) :
    transform_data none = none ∧ load_data env st none = (false, st) ∧
    (extract_data env url = Except.ok none →
      run_pipeline env st url = (false, st, [Stage.extractS])) :=
  ⟨rfl, rfl, fun he => run_of_extract_none env st url he⟩

/-- C7 witness: the 404 scenario makes the extraction absent. -/
theorem null_propagation_witness :
    transform_data none = none ∧
    load_data env404 (some table0) none = (false, some table0) ∧
    run_pipeline env404 (some table0) ("u") = (false, some table0, [Stage.extractS]) :=
  ⟨(null_propagation env404 (some table0) ("u")).1,
   (null_propagation env404 (some table0) ("u")).2.1,
   (null_propagation env404 (some table0) ("u")).2.2 rfl⟩

/-- C8 counterexample: for the content `" a"`, the code (tokenize and
rejoin) produces `"a"`, while the claim's description — whitespace runs
collapsed to single spaces — yields `" a"`: the code also removes leading
and trailing whitespace, which the claim does not state. -/
theorem whitespace_normalization_cex :
    Option.map CleanRecord.content
        (transform_data (some { url := "u", title := "t", content := " a", timestamp := "ts" }))
      = some ("a") ∧
    collapseRunsSpec (" a") = " a" ∧ ("a" : String) ≠ " a" :=
  ⟨rfl, rfl, by decide⟩

/-- C8 (amended): `transform_data` trims the title, and its content equals
the input content with every whitespace run collapsed to a single space
AND leading/trailing whitespace removed; in particular the content
`"a\n\n  b\tc"` becomes `"a b c"`. -/
theorem whitespace_normalization (r : RawRecord) (c : CleanRecord)
    (h : transform_data (some r) = some c) :
    (∃ t, r.title = some t ∧ c.title = pyStrip t) ∧
    c.content = collapseRunsSpec (pyStrip r.content) ∧
    cleanWs ("a\n\n  b\tc") = "a b c" := by
  obtain ⟨t, ht, hc⟩ := transform_some_inv r c h
  subst hc
  exact ⟨⟨t, ht, rfl⟩, cleanWs_eq_collapse_strip r.content, rfl⟩

/-- C8 witness: a concrete record with the claim's example content. -/
theorem whitespace_normalization_witness :
    (∃ t, (some (" t ") : Option String) = some t ∧ ("t" : String) = pyStrip t) ∧
    ("a b c" : String) = collapseRunsSpec (pyStrip ("a\n\n  b\tc")) ∧
    cleanWs ("a\n\n  b\tc") = "a b c" :=
  whitespace_normalization
    { url := "u", title := some (" t "), content := "a\n\n  b\tc", timestamp := "ts" }
    { title := "t", content := "a b c", url := "u", timestamp := "ts"
    , data_hash := md5hex ("ua b c") } rfl

/-- C9: the constructor is the only raising operation: when the storage
engine faults, `scraper_init` re-raises the storage exception while
`load_data` merely reports `false`; when the engine is healthy, a
constructed instance has the `web_data` table in place (created empty when
it did not exist). -/
theorem ctor_reraises_storage_errors (env : Env) (st : Storage) :
    (∀ e, env.dbFault = some e →
      scraper_init env st = Except.error e ∧
      ∀ d, load_data env st (some d) = (false, st)) ∧
    (env.dbFault = none → ∃ t, scraper_init env st = Except.ok (some t)) ∧
    (env.dbFault = none →
      scraper_init env none = Except.ok (some { nextId := 1, rows := [] })) := by
  refine ⟨?_, ?_, ?_⟩
  · intro e he
    constructor
    · simp [scraper_init, setup_database, he]
    · intro d
      simp [load_data, he]
  · intro hd
    cases st with
    | none => exact ⟨{ nextId := 1, rows := [] }, by simp [scraper_init, setup_database, hd]⟩
    | some t => exact ⟨t, by simp [scraper_init, setup_database, hd]⟩
  · intro hd
    simp [scraper_init, setup_database, hd]

/-- C9 witness: a faulted engine and a healthy one. -/
theorem ctor_reraises_storage_errors_witness :
    (scraper_init envFault (some table0) = Except.error PyExc.otherError ∧
      ∀ d, load_data envFault (some table0) (some d) = (false, some table0)) ∧
    (∃ t, scraper_init envOk (some table0) = Except.ok (some t)) ∧
    scraper_init envOk none = Except.ok (some { nextId := 1, rows := [] }) :=
  ⟨(ctor_reraises_storage_errors envFault (some table0)).1 PyExc.otherError rfl,
   (ctor_reraises_storage_errors envOk (some table0)).2.1 rfl,
   (ctor_reraises_storage_errors envOk (some table0)).2.2 rfl⟩

/-- C10: transform frame property: a successful `transform_data` returns
the input's `url` and `timestamp` unchanged. -/
theorem transform_preserves_url_timestamp (r : RawRecord) (c : CleanRecord)
    (h : transform_data (some r) = some c) :
    c.url = r.url ∧ c.timestamp = r.timestamp := by
  obtain ⟨t, ht, hc⟩ := transform_some_inv r c h
  subst hc
  exact ⟨rfl, rfl⟩

/-- C10 witness: a concrete transform keeps url and timestamp. -/
theorem transform_preserves_url_timestamp_witness :
    ("u" : String) = "u" ∧ ("t1" : String) = "t1" :=
  transform_preserves_url_timestamp
    { url := "u", title := some (" t "), content := "x  y", timestamp := "t1" }
    { title := "t", content := "x y", url := "u", timestamp := "t1"
    , data_hash := md5hex ("ux y") } rfl
